import Mathlib

/-!
# Verification of the `@jjuidev/bridge` token-refresh core

Shallow embedding of the token-management core of the `@jjuidev/bridge`
HTTP client: the `TokenManager` class (expiry predicate, token accessors,
lifecycle-event reaction layer, and the single-flight refresh coordinator
`refreshTokenIfNecessary`) and the `EventEmitter` publish/subscribe bus.

The embedding mirrors the TypeScript source. JavaScript specifics that
matter are modelled explicitly:
* `localStorage.getItem` returns `null` for an absent key, and both `null`
  and the empty string are falsy (`Option String` plus a falsiness test);
* a JWT `exp` claim of `0` is falsy, so the `!decoded.exp` guard treats it
  like an absent claim;
* the single-threaded cooperative scheduler: each call to
  `refreshTokenIfNecessary` runs synchronously up to the `await` of the
  external refresh operation, and the shared promise settles only after
  that operation settles and the continuation (validation, events,
  `finally` cleanup) has run.
-/

namespace Bridge

/-- A token pair, `type Token = { accessToken, refreshToken }`. -/
structure Token where
  accessToken : String
  refreshToken : String
deriving DecidableEq, Repr

/-- Storage slot names, `type TokenKey`. -/
structure TokenKey where
  accessToken : String
  refreshToken : String
deriving DecidableEq, Repr

/-- Errors thrown by the token manager.  Each constructor corresponds to one
`new Error(...)` site (or a rejection of the external operation) in the
source. -/
inductive Err
  /-- `new Error('No access token available')` -/
  | missingAccess
  /-- `new Error('No refresh token available')` -/
  | missingRefresh
  /-- `jwtDecode` threw while parsing the token -/
  | decodeFailure
  /-- `new Error('refreshToken expired')` -/
  | refreshExpired
  /-- `new Error('Invalid token returned from executeRefreshToken')` -/
  | invalidRefreshResult
  /-- rejection value of the external `executeRefreshToken` operation -/
  | externalFailure (msg : String)
deriving DecidableEq, Repr

/-- Lifecycle events (`RefreshTokenEvents`) together with their payloads. -/
inductive Ev
  | tokenInvalid (e : Err)
  | refreshStart
  | refreshSuccess (t : Token)
  | refreshError (e : Err)
  | refreshExpired (e : Err)
deriving DecidableEq, Repr

/-- Decoded JWT claims; only the `exp` claim (seconds since epoch) is
consulted by the manager.  `none` models an absent claim. -/
structure Claims where
  exp : Option Nat
deriving DecidableEq, Repr

/-- JavaScript falsiness of a nullable string: `null`/`undefined` and the
empty string are falsy. -/
def jsFalsy : Option String → Bool
  | none => true
  | some s => s = ""

/-- The `localStorage` key-value store, as an association list. -/
abbrev Store := List (String × String)

namespace Store

/-- `localStorage.getItem`: `null` for an absent key. -/
def getItem (s : Store) (k : String) : Option String :=
  (s.find? (fun p => p.1 = k)).map (fun p => p.2)

/-- `localStorage.setItem`. -/
def setItem (s : Store) (k v : String) : Store :=
  (k, v) :: s.filter (fun p => p.1 ≠ k)

/-- `localStorage.clear()` removes every key. -/
def clear (_ : Store) : Store := []

end Store

/-- `TokenManagerOptions` of the canonical `TokenManager` variant.  Override
getters are pure thunks, so they are modelled by the string they return;
override expiry predicates stay functions; for lifecycle callbacks only
presence matters to the manager's own behaviour (the callback bodies are
external code), so each is modelled by a presence flag. -/
structure TMOptions where
  getAccessToken : Option String := none
  getRefreshToken : Option String := none
  isAccessTokenExpiredFn : Option (String → Bool) := none
  isRefreshTokenExpiredFn : Option (String → Bool) := none
  onTokenInvalid : Bool := false
  onRefreshTokenStart : Bool := false
  onRefreshTokenSuccess : Bool := false
  onRefreshTokenError : Bool := false
  onRefreshTokenExpired : Bool := false
  tokenKey : Option TokenKey := none
  expiryThreshold : Option Nat := none

/-- Constructor merge `{ accessToken: 'accessToken', refreshToken:
'refreshToken', ...options.tokenKey }`. -/
def resolveTokenKey (o : Option TokenKey) : TokenKey :=
  o.getD ⟨"accessToken", "refreshToken"⟩

/-- Constructor default `options.expiryThreshold ?? 60_000` (milliseconds). -/
def resolveThreshold (o : Option Nat) : Nat :=
  o.getD 60000

namespace TokenManager

/-- The comparison at the heart of `isTokenExpired`, after a successful
decode: `if (!decoded.exp) return false; return decoded.exp * 1_000 <
Date.now() + this.expiryThreshold`.  `exp = 0` is falsy in JavaScript, so
it takes the early `return false` exactly like an absent claim. -/
def expiredByClaim (expiryThreshold now : Nat) (c : Claims) : Bool :=
  match c.exp with
  | none => false
  | some e => if e = 0 then false else decide (e * 1000 < now + expiryThreshold)

/-- `private isTokenExpired(token)`: decode the token (`decode` stands for
the external `jwtDecode`; `none` models a decode exception), on failure emit
`token:invalid` and rethrow, otherwise compare the `exp` claim.  Returns the
result (or propagated error) together with the events emitted. -/
def isTokenExpired (o : TMOptions) (decode : String → Option Claims) (now : Nat)
    (token : String) : Except Err Bool × List Ev :=
  match decode token with
  | none => (.error .decodeFailure, [.tokenInvalid .decodeFailure])
  | some c => (.ok (expiredByClaim (resolveThreshold o.expiryThreshold) now c), [])

/-- `public getAccessToken()`: the override getter's value is returned
as-is when supplied; otherwise the store is consulted and a falsy value
(absent key or empty string) emits `token:invalid` and throws. -/
def getAccessToken (o : TMOptions) (store : Store) : Except Err String × List Ev :=
  match o.getAccessToken with
  | some v => (.ok v, [])
  | none =>
    match store.getItem (resolveTokenKey o.tokenKey).accessToken with
    | none => (.error .missingAccess, [.tokenInvalid .missingAccess])
    | some s =>
      if s = "" then (.error .missingAccess, [.tokenInvalid .missingAccess])
      else (.ok s, [])

/-- `public getRefreshToken()`, symmetric to `getAccessToken`. -/
def getRefreshToken (o : TMOptions) (store : Store) : Except Err String × List Ev :=
  match o.getRefreshToken with
  | some v => (.ok v, [])
  | none =>
    match store.getItem (resolveTokenKey o.tokenKey).refreshToken with
    | none => (.error .missingRefresh, [.tokenInvalid .missingRefresh])
    | some s =>
      if s = "" then (.error .missingRefresh, [.tokenInvalid .missingRefresh])
      else (.ok s, [])

/-- `public isAccessTokenExpired()`: fetch the access token, apply the
override predicate when supplied, else the default `isTokenExpired`. -/
def isAccessTokenExpired (o : TMOptions) (store : Store)
    (decode : String → Option Claims) (now : Nat) : Except Err Bool × List Ev :=
  match getAccessToken o store with
  | (.error e, evs) => (.error e, evs)
  | (.ok tok, evs) =>
    match o.isAccessTokenExpiredFn with
    | some f => (.ok (f tok), evs)
    | none =>
      let r := isTokenExpired o decode now tok
      (r.1, evs ++ r.2)

/-- `public isRefreshTokenExpired()`, symmetric to `isAccessTokenExpired`. -/
def isRefreshTokenExpired (o : TMOptions) (store : Store)
    (decode : String → Option Claims) (now : Nat) : Except Err Bool × List Ev :=
  match getRefreshToken o store with
  | (.error e, evs) => (.error e, evs)
  | (.ok tok, evs) =>
    match o.isRefreshTokenExpiredFn with
    | some f => (.ok (f tok), evs)
    | none =>
      let r := isTokenExpired o decode now tok
      (r.1, evs ++ r.2)

/-- Which override handlers the lifecycle reaction layer consults. -/
inductive OverrideCall
  | tokenInvalid
  | start
  | success
  | error
  | expired
deriving DecidableEq, Repr

/-- The override handler slot consulted for an event. -/
def overrideCallOf : Ev → OverrideCall
  | .tokenInvalid _ => .tokenInvalid
  | .refreshStart => .start
  | .refreshSuccess _ => .success
  | .refreshError _ => .error
  | .refreshExpired _ => .expired

/-- Whether an override handler is supplied for the event. -/
def overrideSupplied (o : TMOptions) : Ev → Bool
  | .tokenInvalid _ => o.onTokenInvalid
  | .refreshStart => o.onRefreshTokenStart
  | .refreshSuccess _ => o.onRefreshTokenSuccess
  | .refreshError _ => o.onRefreshTokenError
  | .refreshExpired _ => o.onRefreshTokenExpired

/-- The handlers installed by `setupEventListener`, run when an event is
emitted: each handler calls the supplied override when present (recorded in
the returned list; override bodies are external code and do not touch the
store through the manager), else performs the default store action —
persist the pair on `refreshToken:success`, `localStorage.clear()` on
`token:invalid` / `refreshToken:error` / `refreshToken:expired`, nothing on
`refreshToken:start`. -/
def handleLifecycleEvent (o : TMOptions) (store : Store) (ev : Ev) :
    Store × List OverrideCall :=
  match ev with
  | .tokenInvalid _ =>
    if o.onTokenInvalid then (store, [.tokenInvalid]) else (store.clear, [])
  | .refreshStart =>
    if o.onRefreshTokenStart then (store, [.start]) else (store, [])
  | .refreshSuccess t =>
    if o.onRefreshTokenSuccess then (store, [.success])
    else
      let k := resolveTokenKey o.tokenKey
      ((store.setItem k.accessToken t.accessToken).setItem k.refreshToken t.refreshToken, [])
  | .refreshError _ =>
    if o.onRefreshTokenError then (store, [.error]) else (store.clear, [])
  | .refreshExpired _ =>
    if o.onRefreshTokenExpired then (store, [.expired]) else (store.clear, [])

end TokenManager

/-- Observable scheduling markers used by the cooperative-concurrency
scenarios: the invocation of the external `executeRefreshToken`, the
settlement of the refresh attempt (the async IIFE finishing, after its
`finally`), and the settlement of an individual caller awaiting the shared
`refreshPromise`. -/
inductive TraceEntry
  | externalInvoked
  | attemptSettled
  | taskSettled (i : Nat)
deriving DecidableEq, Repr

/-- Mutable state of a `TokenManager` instance, plus observation logs.
`refreshPromise` holds the identity of the pending shared promise
(sessions are numbered by `nextSession`); `externalCalls` counts
invocations of `executeRefreshToken`; `events` is the emitted-event log
and `trace` the scheduling log. -/
structure MgrState where
  isRefreshing : Bool
  refreshPromise : Option Nat
  nextSession : Nat
  externalCalls : Nat
  events : List Ev
  store : Store
  trace : List TraceEntry

/-- State of a freshly constructed manager over an initial store. -/
def MgrState.init (store : Store) : MgrState :=
  ⟨false, none, 0, 0, [], store, []⟩

/-- `this.emit(ev)`: append to the event log and synchronously run the
handlers installed by `setupEventListener` (which may update the store). -/
def MgrState.emit (o : TMOptions) (s : MgrState) (ev : Ev) : MgrState :=
  { s with
    events := s.events ++ [ev]
    store := (TokenManager.handleLifecycleEvent o s.store ev).1 }

/-- Configuration of a refresh scenario: the manager options, the verdict
of `isRefreshTokenExpired()` at call time, and the token pair the getters
return inside the refresh attempt (the scenarios assume the tokens are
present, as every claim about the coordinator does). -/
structure CoordCfg where
  opts : TMOptions
  refreshExpiredNow : Bool
  currentPair : Token

/-- What one call to `refreshTokenIfNecessary()` returns from its
synchronous part: joining the existing shared promise, rejecting
synchronously (expired refresh token), or starting a new session. -/
inductive CallRes
  | joined (sid : Nat)
  | rejected (e : Err)
  | started (sid : Nat)
deriving DecidableEq, Repr

namespace TokenManager

/-- `public async refreshTokenIfNecessary()` — the synchronous part of one
call, i.e. everything that runs before the caller suspends.  Mirrors the
source: an in-flight session is joined (`return this.refreshPromise!`); an
expired refresh token emits `refreshToken:expired` and throws without
entering Refreshing; otherwise the flag is set, `refreshToken:start` is
emitted, and the async IIFE runs up to its `await`, invoking the external
`executeRefreshToken` with the current pair, after which the shared promise
is stored and returned. -/
def refreshTokenIfNecessary (cfg : CoordCfg) (s : MgrState) : MgrState × CallRes :=
  if s.isRefreshing then
    (s, .joined (s.refreshPromise.getD 0))
  else if cfg.refreshExpiredNow then
    let e := Err.refreshExpired
    (s.emit cfg.opts (.refreshExpired e), .rejected e)
  else
    let sid := s.nextSession
    let s1 := { s with isRefreshing := true }
    let s2 := s1.emit cfg.opts .refreshStart
    let s3 :=
      { s2 with
        externalCalls := s2.externalCalls + 1
        trace := s2.trace ++ [TraceEntry.externalInvoked]
        refreshPromise := some sid
        nextSession := sid + 1 }
    (s3, .started sid)

/-- A value the external `executeRefreshToken` promise resolves with:
either some object whose two halves may each be absent or empty, or a
nullish value. -/
inductive RefreshResolved
  | value (accessToken refreshToken : Option String)
  | nullish
deriving DecidableEq, Repr

/-- How the external `executeRefreshToken` operation settles. -/
inductive ExternalOutcome
  | resolves (v : RefreshResolved)
  | rejects (e : Err)
deriving DecidableEq, Repr

/-- The validation `!newToken?.accessToken || !newToken?.refreshToken`:
`some pair` when both halves are present and non-falsy. -/
def completePair : RefreshResolved → Option Token
  | .nullish => none
  | .value a r =>
    if jsFalsy a || jsFalsy r then none
    else some ⟨a.getD "", r.getD ""⟩

/-- The continuation of the async IIFE once the external operation settles:
on rejection the `catch` emits `refreshToken:error`; on a resolved but
incomplete pair the validation branch emits `refreshToken:error` and
throws, and the `catch` emits `refreshToken:error` a second time; on a
complete pair `refreshToken:success` is emitted.  The `finally` then clears
`isRefreshing` and `refreshPromise`, and the shared promise settles with
the returned result (`Promise<void>`: `ok` or the thrown error). -/
def settleRefresh (cfg : CoordCfg) (out : ExternalOutcome) (s : MgrState) :
    MgrState × Except Err Unit :=
  let step : MgrState × Except Err Unit :=
    match out with
    | .rejects e =>
      (s.emit cfg.opts (.refreshError e), .error e)
    | .resolves v =>
      match completePair v with
      | none =>
        let e := Err.invalidRefreshResult
        ((s.emit cfg.opts (.refreshError e)).emit cfg.opts (.refreshError e), .error e)
      | some tok =>
        (s.emit cfg.opts (.refreshSuccess tok), .ok ())
  ({ step.1 with
      isRefreshing := false
      refreshPromise := none
      trace := step.1.trace ++ [TraceEntry.attemptSettled] }, step.2)

/-- Whether a call is suspended awaiting the shared promise (as opposed to
having already rejected synchronously). -/
def awaiting : CallRes → Bool
  | .rejected _ => false
  | _ => true

/-- The outcome an individual caller of `refreshTokenIfNecessary()`
eventually observes: its own synchronous rejection, or the settlement of
the shared promise it awaits. -/
def taskOutcome (r : CallRes) (sessionRes : Except Err Unit) : Except Err Unit :=
  match r with
  | .rejected e => .error e
  | _ => sessionRes

/-- Scheduling markers for the suspended callers resolving, in order, once
the shared promise settles (caller `i` is the `i`-th caller of the burst). -/
def settleMarks : Nat → List CallRes → List TraceEntry
  | _, [] => []
  | i, r :: rs =>
    (if awaiting r then [TraceEntry.taskSettled i] else []) ++ settleMarks (i + 1) rs

/-- A burst of `n` cooperative calls to `refreshTokenIfNecessary()`, one
after another with no settlement in between (the external operation
settles, via the event loop, only after the current synchronous execution
completes). -/
def callBurst (cfg : CoordCfg) : Nat → MgrState → MgrState × List CallRes
  | 0, s => (s, [])
  | n + 1, s =>
    let p := refreshTokenIfNecessary cfg s
    let q := callBurst cfg n p.1
    (q.1, p.2 :: q.2)

/-- Result of a full scenario: final state, the per-caller synchronous
results, and the settlement of the shared promise. -/
structure BurstResult where
  state : MgrState
  results : List CallRes
  sessionResult : Except Err Unit

/-- Full cooperative scenario: from a fresh manager, `n` concurrent calls
to `refreshTokenIfNecessary()`, then the external operation settles with
`out`, the continuation runs, and the suspended callers resolve. -/
def burstThenSettle (cfg : CoordCfg) (n : Nat) (out : ExternalOutcome)
    (store0 : Store) : BurstResult :=
  let b := callBurst cfg n (MgrState.init store0)
  let f := settleRefresh cfg out b.1
  ⟨{ f.1 with trace := f.1.trace ++ settleMarks 0 b.2 }, b.2, f.2⟩

end TokenManager

namespace EventEmitter

/-!
## The `EventEmitter` bus and `once`

`once(eventName, handler)` registers a wrapper that first unsubscribes
itself (`this.off(eventName, onceHandler)`) and only then invokes the user
handler.  To settle what that ordering buys, the handler set for one event
name is modelled as a list of handler identities (a JS `Set` iterated in
insertion order), and `emit` is interpreted over it.  A handler is either a
plainly subscribed one (`on`) or the once-wrapper of a user handler; what a
user handler does when invoked is given by a behaviour table: return
normally, raise (propagating out of `emit`, which does not catch), or
synchronously re-publish the same event.  The interpreter follows JS
`Set.prototype.forEach`: the elements present at the start are visited in
order, but an element removed before its turn is skipped — hence `emit`
walks the start-of-emit snapshot and checks liveness before each call.
Re-entrant emission consumes fuel; running out of fuel aborts the walk
(the stack overflows), which can only lose invocations. -/

/-- A registered handler: a plain `on` subscription or the `once` wrapper
around user handler `id`. -/
inductive Handler
  | plain (id : Nat)
  | wrapper (id : Nat)
deriving DecidableEq, Repr

/-- What a user handler does when invoked. -/
inductive UserBeh
  | calm
  | raiseErr
  | reemit
deriving DecidableEq, Repr

/-- The user handler a registered handler invokes. -/
def handlerUser : Handler → Nat
  | .plain i => i
  | .wrapper i => i

/-- Whether the handler is a once-wrapper. -/
def isWrapper : Handler → Bool
  | .plain _ => false
  | .wrapper _ => true

/-- Contribution of invoking handler `h` to the count of runs of the
tracked once-registration `tr` (the wrapper around user handler `tr`). -/
def hitCount (tr : Nat) : Handler → Nat
  | .plain _ => 0
  | .wrapper i => if i = tr then 1 else 0

/-- Result of interpreting one `emit`: the registered set afterwards, how
often the tracked once-registration's user handler ran, and whether the
emission aborted with an exception. -/
structure EmitRes where
  live : List Handler
  onceRuns : Nat
  raised : Bool
deriving DecidableEq, Repr

/-- Interpret `emit`: walk the `pending` snapshot, skipping handlers no
longer in `live`.  Invoking a wrapper first removes it from `live` (the
source's `this.off(eventName, onceHandler)` before `handler(...args)`),
then runs the user behaviour; a raise aborts the walk; a re-publish runs a
nested emit over the current `live` before the walk continues. -/
def runEmit (beh : Nat → UserBeh) (tr : Nat) (fuel : Nat)
    (pending live : List Handler) : EmitRes :=
  match pending with
  | [] => ⟨live, 0, false⟩
  | h :: rest =>
    if h ∈ live then
      let live1 := if isWrapper h then live.erase h else live
      let hits := hitCount tr h
      match beh (handlerUser h) with
      | .calm =>
        let r := runEmit beh tr fuel rest live1
        ⟨r.live, hits + r.onceRuns, r.raised⟩
      | .raiseErr => ⟨live1, hits, true⟩
      | .reemit =>
        match fuel with
        | 0 => ⟨live1, hits, true⟩
        | f + 1 =>
          let inner := runEmit beh tr f live1 live1
          if inner.raised then ⟨inner.live, hits + inner.onceRuns, true⟩
          else
            let r := runEmit beh tr (f + 1) rest inner.live
            ⟨r.live, hits + inner.onceRuns + r.onceRuns, r.raised⟩
    else runEmit beh tr fuel rest live
termination_by (fuel, pending.length)

/-- Invoking one handler: the run it may contribute plus the tracked
wrapper's occurrences after the wrapper self-removal never exceed its
occurrences before. -/
lemma preStep (tr : Nat) (h : Handler) (live : List Handler) (hmem : h ∈ live) :
    hitCount tr h +
      (if isWrapper h then live.erase h else live).count (Handler.wrapper tr) ≤
      live.count (Handler.wrapper tr) := by
  cases h with
  | plain i => simp [hitCount, isWrapper]
  | wrapper i =>
    simp only [hitCount, isWrapper, if_true]
    by_cases hi : i = tr
    · subst hi
      have hpos : 0 < live.count (Handler.wrapper i) := List.count_pos_iff.mpr hmem
      simp [List.count_erase_self]
      omega
    · have hne : Handler.wrapper tr ≠ Handler.wrapper i := by
        simp only [ne_eq, Handler.wrapper.injEq]
        exact fun hc => hi hc.symm
      rw [List.count_erase_of_ne hne]
      simp [hi]

/-- Invariant behind `once`: because a wrapper removes itself from the
registered set before its user handler runs, one emission can consume each
registered wrapper occurrence at most once — the runs of the tracked
wrapper plus its remaining registered occurrences never exceed its
occurrences at the start. -/
theorem runEmit_once_bound (beh : Nat → UserBeh) (tr fuel : Nat)
    (pending live : List Handler) :
    (runEmit beh tr fuel pending live).onceRuns +
      (runEmit beh tr fuel pending live).live.count (Handler.wrapper tr) ≤
      live.count (Handler.wrapper tr) := by
  induction fuel, pending, live using runEmit.induct beh tr with
  | case1 fuel live => simp [runEmit]
  | case2 =>
    rename_i fuel live h rest hmem live1 hbeh ih
    have hp := preStep tr h live hmem
    have ih2 : (runEmit beh tr fuel rest (if isWrapper h then live.erase h else live)).onceRuns +
        (runEmit beh tr fuel rest (if isWrapper h then live.erase h else live)).live.count
          (Handler.wrapper tr) ≤
        (if isWrapper h then live.erase h else live).count (Handler.wrapper tr) := ih
    rw [runEmit, if_pos hmem]
    simp only [hbeh]
    omega
  | case3 =>
    rename_i fuel live h rest hmem hbeh
    have hp := preStep tr h live hmem
    rw [runEmit, if_pos hmem]
    simp only [hbeh]
    omega
  | case4 =>
    rename_i live h rest hmem hbeh
    have hp := preStep tr h live hmem
    rw [runEmit, if_pos hmem]
    simp only [hbeh]
    omega
  | case5 =>
    rename_i live h rest hmem live1 hbeh f inner hraised ih
    have hp := preStep tr h live hmem
    have ihx : (runEmit beh tr f (if isWrapper h then live.erase h else live)
          (if isWrapper h then live.erase h else live)).onceRuns +
        (runEmit beh tr f (if isWrapper h then live.erase h else live)
          (if isWrapper h then live.erase h else live)).live.count (Handler.wrapper tr) ≤
        (if isWrapper h then live.erase h else live).count (Handler.wrapper tr) := ih
    have hr : (runEmit beh tr f (if isWrapper h then live.erase h else live)
        (if isWrapper h then live.erase h else live)).raised = true := hraised
    rw [runEmit, if_pos hmem]
    simp only [hbeh, hr, if_true]
    omega
  | case6 =>
    rename_i live h rest hmem live1 hbeh f inner hok ih3 ih2 ih1
    have hp := preStep tr h live hmem
    have ihx : (runEmit beh tr f (if isWrapper h then live.erase h else live)
          (if isWrapper h then live.erase h else live)).onceRuns +
        (runEmit beh tr f (if isWrapper h then live.erase h else live)
          (if isWrapper h then live.erase h else live)).live.count (Handler.wrapper tr) ≤
        (if isWrapper h then live.erase h else live).count (Handler.wrapper tr) := ih3
    have ihc : (runEmit beh tr (f + 1) rest
          (runEmit beh tr f (if isWrapper h then live.erase h else live)
            (if isWrapper h then live.erase h else live)).live).onceRuns +
        (runEmit beh tr (f + 1) rest
          (runEmit beh tr f (if isWrapper h then live.erase h else live)
            (if isWrapper h then live.erase h else live)).live).live.count
          (Handler.wrapper tr) ≤
        (runEmit beh tr f (if isWrapper h then live.erase h else live)
          (if isWrapper h then live.erase h else live)).live.count (Handler.wrapper tr) := ih1
    have hr : (runEmit beh tr f (if isWrapper h then live.erase h else live)
        (if isWrapper h then live.erase h else live)).raised = false := by
      have := hok
      simp only [Bool.not_eq_true] at this
      exact this
    rw [runEmit, if_pos hmem]
    simp only [hbeh, hr, Bool.false_eq_true, if_false]
    omega
  | case7 =>
    rename_i fuel live h rest hmem ih
    rw [runEmit, if_neg hmem]
    exact ih

/-- C9: a handler registered via the bus's subscribe-once operation runs at
most once per registration.  The `once` wrapper calls `this.off` on itself
before invoking the user handler, so one emission over any registered set
containing that wrapper (at most once, as a JS `Set` guarantees) invokes
the user handler at most once — even when the handler raises during its
invocation, or synchronously re-publishes the same event, and whatever the
other registered handlers do. -/
theorem once_runs_at_most_once (beh : Nat → UserBeh) (tr fuel : Nat)
    (live : List Handler) (h : live.count (Handler.wrapper tr) ≤ 1) :
    (runEmit beh tr fuel live live).onceRuns ≤ 1 := by
  have hb := runEmit_once_bound beh tr fuel live live
  omega

/-- C9 witness: the once-wrapper of handler 0 registered alongside a plain
handler, with every user handler re-publishing the event on invocation. -/
theorem once_runs_at_most_once_witness :
    List.count (Handler.wrapper 0) [Handler.wrapper 0, Handler.plain 1] ≤ 1 ∧
    (runEmit (fun _ => UserBeh.reemit) 0 3 [Handler.wrapper 0, Handler.plain 1]
      [Handler.wrapper 0, Handler.plain 1]).onceRuns ≤ 1 :=
  ⟨by decide,
    once_runs_at_most_once (fun _ => UserBeh.reemit) 0 3
      [Handler.wrapper 0, Handler.plain 1] (by decide)⟩

end EventEmitter

/-! ## Concrete configurations used by counterexamples and witnesses -/

/-- Options with an override access-token getter returning `"t"` and all
other options left at their defaults. -/
def optsOverrideTok : TMOptions := { getAccessToken := some "t" }

/-- A decode function (standing for `jwtDecode`) under which every token
carries the expiry claim `exp = 100` (seconds). -/
def decodeExp100 : String → Option Claims := fun _ => some ⟨some 100⟩

/-- Options whose override getters both return the empty string. -/
def optsEmptyOverride : TMOptions :=
  { getAccessToken := some "", getRefreshToken := some "" }

/-- Options supplying an override callback for every lifecycle event. -/
def optsAllCallbacks : TMOptions :=
  { onTokenInvalid := true, onRefreshTokenStart := true, onRefreshTokenSuccess := true
    onRefreshTokenError := true, onRefreshTokenExpired := true }

/-! ## Helper lemmas about the coordinator state machine -/

@[simp]
lemma emit_isRefreshing (o : TMOptions) (s : MgrState) (ev : Ev) :
    (s.emit o ev).isRefreshing = s.isRefreshing := rfl

@[simp]
lemma emit_refreshPromise (o : TMOptions) (s : MgrState) (ev : Ev) :
    (s.emit o ev).refreshPromise = s.refreshPromise := rfl

@[simp]
lemma emit_nextSession (o : TMOptions) (s : MgrState) (ev : Ev) :
    (s.emit o ev).nextSession = s.nextSession := rfl

@[simp]
lemma emit_externalCalls (o : TMOptions) (s : MgrState) (ev : Ev) :
    (s.emit o ev).externalCalls = s.externalCalls := rfl

@[simp]
lemma emit_trace (o : TMOptions) (s : MgrState) (ev : Ev) :
    (s.emit o ev).trace = s.trace := rfl

@[simp]
lemma emit_events (o : TMOptions) (s : MgrState) (ev : Ev) :
    (s.emit o ev).events = s.events ++ [ev] := rfl

/-- A call made while a session is in flight joins it and leaves the state
untouched. -/
lemma rtin_join (cfg : CoordCfg) (s : MgrState) (h : s.isRefreshing = true) :
    TokenManager.refreshTokenIfNecessary cfg s = (s, .joined (s.refreshPromise.getD 0)) := by
  simp [TokenManager.refreshTokenIfNecessary, h]

/-- A call made while Idle with a live refresh token starts the session
numbered `s.nextSession`; only that call invokes the external operation. -/
lemma rtin_start (cfg : CoordCfg) (s : MgrState)
    (h1 : s.isRefreshing = false) (h2 : cfg.refreshExpiredNow = false) :
    (TokenManager.refreshTokenIfNecessary cfg s).2 = .started s.nextSession ∧
    (TokenManager.refreshTokenIfNecessary cfg s).1.isRefreshing = true ∧
    (TokenManager.refreshTokenIfNecessary cfg s).1.refreshPromise = some s.nextSession ∧
    (TokenManager.refreshTokenIfNecessary cfg s).1.externalCalls = s.externalCalls + 1 ∧
    (TokenManager.refreshTokenIfNecessary cfg s).1.trace =
      s.trace ++ [TraceEntry.externalInvoked] ∧
    (TokenManager.refreshTokenIfNecessary cfg s).1.nextSession = s.nextSession + 1 ∧
    (TokenManager.refreshTokenIfNecessary cfg s).1.events = s.events ++ [.refreshStart] := by
  simp [TokenManager.refreshTokenIfNecessary, h1, h2]

/-- Every call of a burst made while a session is in flight joins it. -/
lemma callBurst_join (cfg : CoordCfg) (s : MgrState) (sid : Nat)
    (h : s.isRefreshing = true) (hp : s.refreshPromise = some sid) :
    ∀ m, TokenManager.callBurst cfg m s = (s, List.replicate m (.joined sid)) := by
  intro m
  induction m with
  | zero => rfl
  | succ k ih =>
    simp [TokenManager.callBurst, rtin_join cfg s h, hp, ih, List.replicate_succ]

/-- Settling a session preserves the external-call count and the session
counter, appends the attempt-settled marker, and unconditionally (success
or failure) clears the in-progress flag and discards the shared promise. -/
lemma settle_fields (cfg : CoordCfg) (out : TokenManager.ExternalOutcome) (s : MgrState) :
    (TokenManager.settleRefresh cfg out s).1.externalCalls = s.externalCalls ∧
    (TokenManager.settleRefresh cfg out s).1.nextSession = s.nextSession ∧
    (TokenManager.settleRefresh cfg out s).1.trace = s.trace ++ [TraceEntry.attemptSettled] ∧
    (TokenManager.settleRefresh cfg out s).1.isRefreshing = false ∧
    (TokenManager.settleRefresh cfg out s).1.refreshPromise = none := by
  unfold TokenManager.settleRefresh
  cases out with
  | rejects e => simp
  | resolves v => cases h : TokenManager.completePair v <;> simp [h]

/-- Settler markers only ever mark task settlements. -/
lemma settleMarks_mem (rs : List CallRes) :
    ∀ i x, x ∈ TokenManager.settleMarks i rs → ∃ j, x = TraceEntry.taskSettled j := by
  induction rs with
  | nil => intro i x hx; simp [TokenManager.settleMarks] at hx
  | cons r rest ih =>
    intro i x hx
    unfold TokenManager.settleMarks at hx
    rw [List.mem_append] at hx
    rcases hx with hx | hx
    · simp at hx
      exact ⟨i, hx.2⟩
    · exact ih (i + 1) x hx

/-- In a burst of `k + 1` calls from a fresh manager with a live refresh
token, the first call starts session 0 and the remaining `k` join it. -/
lemma callBurst_from_init (cfg : CoordCfg) (store0 : Store) (k : Nat)
    (hne : cfg.refreshExpiredNow = false) :
    (TokenManager.callBurst cfg (k + 1) (MgrState.init store0)).2 =
      .started 0 :: List.replicate k (.joined 0) ∧
    (TokenManager.callBurst cfg (k + 1) (MgrState.init store0)).1 =
      (TokenManager.refreshTokenIfNecessary cfg (MgrState.init store0)).1 := by
  have h0 : (MgrState.init store0).isRefreshing = false := rfl
  have hs := rtin_start cfg (MgrState.init store0) h0 hne
  have hjoin := callBurst_join cfg (TokenManager.refreshTokenIfNecessary cfg (MgrState.init store0)).1
    0 hs.2.1 (by rw [hs.2.2.1]; rfl) k
  constructor
  · simp only [TokenManager.callBurst]
    rw [hjoin, hs.1]
    rfl
  · simp only [TokenManager.callBurst]
    rw [hjoin]

/-- Projection: the per-caller results of a scenario are the burst's. -/
lemma burstThenSettle_results (cfg : CoordCfg) (n : Nat)
    (out : TokenManager.ExternalOutcome) (store0 : Store) :
    (TokenManager.burstThenSettle cfg n out store0).results =
      (TokenManager.callBurst cfg n (MgrState.init store0)).2 := rfl

/-- Projection: the session's settlement is the continuation's result. -/
lemma burstThenSettle_sessionResult (cfg : CoordCfg) (n : Nat)
    (out : TokenManager.ExternalOutcome) (store0 : Store) :
    (TokenManager.burstThenSettle cfg n out store0).sessionResult =
      (TokenManager.settleRefresh cfg out
        (TokenManager.callBurst cfg n (MgrState.init store0)).1).2 := rfl

/-- Projection: the scenario trace is the settled trace followed by the
task-settled markers. -/
lemma burstThenSettle_trace (cfg : CoordCfg) (n : Nat)
    (out : TokenManager.ExternalOutcome) (store0 : Store) :
    (TokenManager.burstThenSettle cfg n out store0).state.trace =
      (TokenManager.settleRefresh cfg out
        (TokenManager.callBurst cfg n (MgrState.init store0)).1).1.trace ++
        TokenManager.settleMarks 0 (TokenManager.callBurst cfg n (MgrState.init store0)).2 := rfl

/-- Projection: caller settlement adds no external calls. -/
lemma burstThenSettle_externalCalls (cfg : CoordCfg) (n : Nat)
    (out : TokenManager.ExternalOutcome) (store0 : Store) :
    (TokenManager.burstThenSettle cfg n out store0).state.externalCalls =
      (TokenManager.settleRefresh cfg out
        (TokenManager.callBurst cfg n (MgrState.init store0)).1).1.externalCalls := rfl

/-- Projection: caller settlement emits no events. -/
lemma burstThenSettle_events (cfg : CoordCfg) (n : Nat)
    (out : TokenManager.ExternalOutcome) (store0 : Store) :
    (TokenManager.burstThenSettle cfg n out store0).state.events =
      (TokenManager.settleRefresh cfg out
        (TokenManager.callBurst cfg n (MgrState.init store0)).1).1.events := rfl

/-- Projection: caller settlement does not touch the store. -/
lemma burstThenSettle_store (cfg : CoordCfg) (n : Nat)
    (out : TokenManager.ExternalOutcome) (store0 : Store) :
    (TokenManager.burstThenSettle cfg n out store0).state.store =
      (TokenManager.settleRefresh cfg out
        (TokenManager.callBurst cfg n (MgrState.init store0)).1).1.store := rfl

/-- Settling a malformed resolution: the continuation rejects with the
invalid-result error, `refreshToken:error` is emitted (twice: once in the
validation branch, once in the `catch`), and the store sees only the
error reactions. -/
lemma settle_malformed (cfg : CoordCfg) (v : TokenManager.RefreshResolved) (s : MgrState)
    (hv : TokenManager.completePair v = none) :
    (TokenManager.settleRefresh cfg (.resolves v) s).2 = .error .invalidRefreshResult ∧
    (TokenManager.settleRefresh cfg (.resolves v) s).1.events = s.events ++
      [.refreshError .invalidRefreshResult, .refreshError .invalidRefreshResult] ∧
    (TokenManager.settleRefresh cfg (.resolves v) s).1.store =
      (TokenManager.handleLifecycleEvent cfg.opts
        (TokenManager.handleLifecycleEvent cfg.opts s.store
          (.refreshError .invalidRefreshResult)).1
        (.refreshError .invalidRefreshResult)).1 := by
  unfold TokenManager.settleRefresh
  simp [hv, MgrState.emit]

/-! ## C1 — single-flight invariant -/

/-- C1 (single-flight): for `n ≥ 2` cooperative calls to
`refreshTokenIfNecessary()` against a fresh manager (no refresh in
progress) with a live refresh token, all made before the external
operation settles: `executeRefreshToken` is invoked exactly once; the
first call starts session 0 and every other call joins it; every caller
settles with the one shared session outcome (so all resolve, or all
reject with the same error); and no caller settles before the originating
attempt settles — in the scheduling trace, every task-settled marker
comes strictly after the attempt-settled marker. -/
theorem single_flight_invariant (cfg : CoordCfg) (n : Nat)
    (out : TokenManager.ExternalOutcome) (store0 : Store)
    (hn : 2 ≤ n) (hne : cfg.refreshExpiredNow = false) :
    (TokenManager.burstThenSettle cfg n out store0).state.externalCalls = 1 ∧
    (TokenManager.burstThenSettle cfg n out store0).results =
      .started 0 :: List.replicate (n - 1) (.joined 0) ∧
    (∀ r ∈ (TokenManager.burstThenSettle cfg n out store0).results,
      TokenManager.taskOutcome r (TokenManager.burstThenSettle cfg n out store0).sessionResult =
        (TokenManager.burstThenSettle cfg n out store0).sessionResult) ∧
    (∀ i j k,
      (TokenManager.burstThenSettle cfg n out store0).state.trace.get? i =
        some TraceEntry.attemptSettled →
      (TokenManager.burstThenSettle cfg n out store0).state.trace.get? j =
        some (TraceEntry.taskSettled k) →
      i < j) := by
  obtain ⟨k, rfl⟩ : ∃ k, n = k + 1 := ⟨n - 1, by omega⟩
  have hb := callBurst_from_init cfg store0 k hne
  have hs := rtin_start cfg (MgrState.init store0) rfl hne
  have hf := settle_fields cfg out
    (TokenManager.callBurst cfg (k + 1) (MgrState.init store0)).1
  refine ⟨?_, ?_, ?_, ?_⟩
  · rw [burstThenSettle_externalCalls, hf.1, hb.2, hs.2.2.2.1]
    rfl
  · rw [burstThenSettle_results, hb.1]
    simp
  · intro r hr
    rw [burstThenSettle_results, hb.1] at hr
    rcases List.mem_cons.mp hr with rfl | hr
    · rfl
    · rw [List.eq_of_mem_replicate hr]
      rfl
  · have htr : (TokenManager.burstThenSettle cfg (k + 1) out store0).state.trace =
        TraceEntry.externalInvoked :: TraceEntry.attemptSettled ::
          TokenManager.settleMarks 0
            (TokenManager.callBurst cfg (k + 1) (MgrState.init store0)).2 := by
      rw [burstThenSettle_trace, hf.2.2.1, hb.2, hs.2.2.2.2.1]
      rfl
    intro i j k' hi hj
    rw [htr] at hi hj
    rcases j with _ | _ | j
    · simp at hj
    · simp at hj
    · rcases i with _ | _ | i
      · simp at hi
      · omega
      · exfalso
        simp only [List.get?_cons_succ] at hi
        have hm := List.get?_mem hi
        obtain ⟨j', hj'⟩ := settleMarks_mem _ 0 _ hm
        exact TraceEntry.noConfusion hj'

/-- C1 witness: two concurrent calls, external operation resolving with a
complete pair. -/
theorem single_flight_invariant_witness :
    2 ≤ 2 ∧ (CoordCfg.mk {} false ⟨"A1", "R1"⟩).refreshExpiredNow = false ∧
    ((TokenManager.burstThenSettle (CoordCfg.mk {} false ⟨"A1", "R1"⟩) 2
        (.resolves (.value (some "A2") (some "R2"))) []).state.externalCalls = 1 ∧
     (TokenManager.burstThenSettle (CoordCfg.mk {} false ⟨"A1", "R1"⟩) 2
        (.resolves (.value (some "A2") (some "R2"))) []).results =
       .started 0 :: List.replicate 1 (.joined 0) ∧
     (∀ r ∈ (TokenManager.burstThenSettle (CoordCfg.mk {} false ⟨"A1", "R1"⟩) 2
        (.resolves (.value (some "A2") (some "R2"))) []).results,
       TokenManager.taskOutcome r
         (TokenManager.burstThenSettle (CoordCfg.mk {} false ⟨"A1", "R1"⟩) 2
           (.resolves (.value (some "A2") (some "R2"))) []).sessionResult =
       (TokenManager.burstThenSettle (CoordCfg.mk {} false ⟨"A1", "R1"⟩) 2
           (.resolves (.value (some "A2") (some "R2"))) []).sessionResult) ∧
     (∀ i j k,
       (TokenManager.burstThenSettle (CoordCfg.mk {} false ⟨"A1", "R1"⟩) 2
          (.resolves (.value (some "A2") (some "R2"))) []).state.trace.get? i =
         some TraceEntry.attemptSettled →
       (TokenManager.burstThenSettle (CoordCfg.mk {} false ⟨"A1", "R1"⟩) 2
          (.resolves (.value (some "A2") (some "R2"))) []).state.trace.get? j =
         some (TraceEntry.taskSettled k) →
       i < j)) :=
  ⟨by norm_num, rfl,
    single_flight_invariant (CoordCfg.mk {} false ⟨"A1", "R1"⟩) 2
      (.resolves (.value (some "A2") (some "R2"))) [] (by norm_num) rfl⟩

/-! ## C2 — event sequences per refresh attempt -/

/-- C2, evaluated at the failing input.  A successful refresh emits exactly
`refreshToken:start` then `refreshToken:success`; a rejected external
operation emits `refreshToken:start` then `refreshToken:error` once; an
expired refresh token emits only `refreshToken:expired`.  But when the
external operation resolves with a pair missing a half, the validation
branch emits `refreshToken:error` and throws, and the `catch` emits the
same `refreshToken:error` a second time — the error event is published
twice for that single attempt, not exactly once as claimed. -/
theorem refresh_event_sequences :
    (TokenManager.burstThenSettle (CoordCfg.mk {} false ⟨"A1", "R1"⟩) 1
        (.resolves (.value (some "A2") (some "R2"))) []).state.events =
      [.refreshStart, .refreshSuccess ⟨"A2", "R2"⟩] ∧
    (TokenManager.burstThenSettle (CoordCfg.mk {} false ⟨"A1", "R1"⟩) 1
        (.rejects (.externalFailure "boom")) []).state.events =
      [.refreshStart, .refreshError (.externalFailure "boom")] ∧
    (TokenManager.refreshTokenIfNecessary (CoordCfg.mk {} true ⟨"A1", "R1"⟩)
        (MgrState.init [])).1.events = [.refreshExpired .refreshExpired] ∧
    (TokenManager.burstThenSettle (CoordCfg.mk {} false ⟨"A1", "R1"⟩) 1
        (.resolves (.value (some "A2") none)) []).state.events =
      [.refreshStart, .refreshError .invalidRefreshResult,
        .refreshError .invalidRefreshResult] :=
  ⟨rfl, rfl, rfl, rfl⟩

/-! ## C5 — malformed refresh result -/

/-- C5: with default lifecycle handlers, when the external operation
resolves with a value missing either token half, the attempt rejects with
the invalid-result error for the initiator and every joined waiter,
`refreshToken:error` is published, `refreshToken:success` is never
published, and the success-path persistence does not run — the final store
contains no tokens at all (the error reaction cleared it), rather than a
pair written by the success handler. -/
theorem malformed_result_rejects_all (pair : Token) (v : TokenManager.RefreshResolved)
    (n : Nat) (store0 : Store) (hn : 1 ≤ n)
    (hv : TokenManager.completePair v = none) :
    (TokenManager.burstThenSettle (CoordCfg.mk {} false pair) n
      (.resolves v) store0).sessionResult = .error .invalidRefreshResult ∧
    (∀ r ∈ (TokenManager.burstThenSettle (CoordCfg.mk {} false pair) n
        (.resolves v) store0).results,
      TokenManager.taskOutcome r
        (TokenManager.burstThenSettle (CoordCfg.mk {} false pair) n
          (.resolves v) store0).sessionResult = .error .invalidRefreshResult) ∧
    (∀ tok, Ev.refreshSuccess tok ∉
      (TokenManager.burstThenSettle (CoordCfg.mk {} false pair) n
        (.resolves v) store0).state.events) ∧
    Ev.refreshError .invalidRefreshResult ∈
      (TokenManager.burstThenSettle (CoordCfg.mk {} false pair) n
        (.resolves v) store0).state.events ∧
    (TokenManager.burstThenSettle (CoordCfg.mk {} false pair) n
      (.resolves v) store0).state.store = [] := by
  obtain ⟨k, rfl⟩ : ∃ k, n = k + 1 := ⟨n - 1, by omega⟩
  have hb := callBurst_from_init (CoordCfg.mk {} false pair) store0 k rfl
  have hs := rtin_start (CoordCfg.mk {} false pair) (MgrState.init store0) rfl rfl
  have hm := settle_malformed (CoordCfg.mk {} false pair) v
    (TokenManager.callBurst (CoordCfg.mk {} false pair) (k + 1) (MgrState.init store0)).1 hv
  have hev : (TokenManager.burstThenSettle (CoordCfg.mk {} false pair) (k + 1)
      (.resolves v) store0).state.events =
      [.refreshStart, .refreshError .invalidRefreshResult,
        .refreshError .invalidRefreshResult] := by
    rw [burstThenSettle_events, hm.2.1, hb.2, hs.2.2.2.2.2.2]
    rfl
  refine ⟨?_, ?_, ?_, ?_, ?_⟩
  · rw [burstThenSettle_sessionResult, hm.1]
  · intro r hr
    rw [burstThenSettle_results, hb.1] at hr
    rw [burstThenSettle_sessionResult, hm.1]
    rcases List.mem_cons.mp hr with rfl | hr
    · rfl
    · rw [List.eq_of_mem_replicate hr]
      rfl
  · intro tok
    rw [hev]
    simp
  · rw [hev]
    simp
  · rw [burstThenSettle_store, hm.2.2]
    rfl

/-- C5 witness: two callers, resolution missing the refresh-token half. -/
theorem malformed_result_rejects_all_witness :
    1 ≤ 2 ∧ TokenManager.completePair (.value (some "A2") none) = none ∧
    ((TokenManager.burstThenSettle (CoordCfg.mk {} false ⟨"A1", "R1"⟩) 2
        (.resolves (.value (some "A2") none)) [("accessToken", "A1")]).sessionResult =
      .error .invalidRefreshResult ∧
     (∀ r ∈ (TokenManager.burstThenSettle (CoordCfg.mk {} false ⟨"A1", "R1"⟩) 2
         (.resolves (.value (some "A2") none)) [("accessToken", "A1")]).results,
       TokenManager.taskOutcome r
         (TokenManager.burstThenSettle (CoordCfg.mk {} false ⟨"A1", "R1"⟩) 2
           (.resolves (.value (some "A2") none)) [("accessToken", "A1")]).sessionResult =
         .error .invalidRefreshResult) ∧
     (∀ tok, Ev.refreshSuccess tok ∉
       (TokenManager.burstThenSettle (CoordCfg.mk {} false ⟨"A1", "R1"⟩) 2
         (.resolves (.value (some "A2") none)) [("accessToken", "A1")]).state.events) ∧
     Ev.refreshError .invalidRefreshResult ∈
       (TokenManager.burstThenSettle (CoordCfg.mk {} false ⟨"A1", "R1"⟩) 2
         (.resolves (.value (some "A2") none)) [("accessToken", "A1")]).state.events ∧
     (TokenManager.burstThenSettle (CoordCfg.mk {} false ⟨"A1", "R1"⟩) 2
        (.resolves (.value (some "A2") none)) [("accessToken", "A1")]).state.store = []) :=
  ⟨by norm_num, rfl,
    malformed_result_rejects_all ⟨"A1", "R1"⟩ (.value (some "A2") none) 2
      [("accessToken", "A1")] (by norm_num) rfl⟩

/-! ## C8 — session reset -/

/-- C8: after a refresh attempt settles — with any outcome — the session is
destroyed in the `finally`: the in-progress flag is cleared and the shared
promise discarded, so a subsequent call to `refreshTokenIfNecessary()`
starts a brand-new session (a fresh promise, session 1) and invokes the
external operation a second time rather than returning a cached result. -/
theorem session_reset (cfg : CoordCfg) (out : TokenManager.ExternalOutcome)
    (store0 : Store) (hne : cfg.refreshExpiredNow = false) :
    (TokenManager.refreshTokenIfNecessary cfg (MgrState.init store0)).2 = .started 0 ∧
    (TokenManager.settleRefresh cfg out
      (TokenManager.refreshTokenIfNecessary cfg (MgrState.init store0)).1).1.isRefreshing =
        false ∧
    (TokenManager.settleRefresh cfg out
      (TokenManager.refreshTokenIfNecessary cfg (MgrState.init store0)).1).1.refreshPromise =
        none ∧
    (TokenManager.refreshTokenIfNecessary cfg
      (TokenManager.settleRefresh cfg out
        (TokenManager.refreshTokenIfNecessary cfg (MgrState.init store0)).1).1).2 =
        .started 1 ∧
    (TokenManager.refreshTokenIfNecessary cfg
      (TokenManager.settleRefresh cfg out
        (TokenManager.refreshTokenIfNecessary cfg (MgrState.init store0)).1).1).1.externalCalls =
        2 := by
  have hs := rtin_start cfg (MgrState.init store0) rfl hne
  have hf := settle_fields cfg out (TokenManager.refreshTokenIfNecessary cfg (MgrState.init store0)).1
  have hs2 := rtin_start cfg
    (TokenManager.settleRefresh cfg out
      (TokenManager.refreshTokenIfNecessary cfg (MgrState.init store0)).1).1
    hf.2.2.2.1 hne
  refine ⟨hs.1, hf.2.2.2.1, hf.2.2.2.2, ?_, ?_⟩
  · rw [hs2.1, hf.2.1, hs.2.2.2.2.2.1]
    rfl
  · rw [hs2.2.2.2.1, hf.1, hs.2.2.2.1]
    rfl

/-- C8 witness: a rejected refresh followed by a second call. -/
theorem session_reset_witness :
    (CoordCfg.mk {} false ⟨"A1", "R1"⟩).refreshExpiredNow = false ∧
    ((TokenManager.refreshTokenIfNecessary (CoordCfg.mk {} false ⟨"A1", "R1"⟩)
        (MgrState.init [])).2 = .started 0 ∧
     (TokenManager.settleRefresh (CoordCfg.mk {} false ⟨"A1", "R1"⟩)
        (.rejects (.externalFailure "down"))
        (TokenManager.refreshTokenIfNecessary (CoordCfg.mk {} false ⟨"A1", "R1"⟩)
          (MgrState.init [])).1).1.isRefreshing = false ∧
     (TokenManager.settleRefresh (CoordCfg.mk {} false ⟨"A1", "R1"⟩)
        (.rejects (.externalFailure "down"))
        (TokenManager.refreshTokenIfNecessary (CoordCfg.mk {} false ⟨"A1", "R1"⟩)
          (MgrState.init [])).1).1.refreshPromise = none ∧
     (TokenManager.refreshTokenIfNecessary (CoordCfg.mk {} false ⟨"A1", "R1"⟩)
        (TokenManager.settleRefresh (CoordCfg.mk {} false ⟨"A1", "R1"⟩)
          (.rejects (.externalFailure "down"))
          (TokenManager.refreshTokenIfNecessary (CoordCfg.mk {} false ⟨"A1", "R1"⟩)
            (MgrState.init [])).1).1).2 = .started 1 ∧
     (TokenManager.refreshTokenIfNecessary (CoordCfg.mk {} false ⟨"A1", "R1"⟩)
        (TokenManager.settleRefresh (CoordCfg.mk {} false ⟨"A1", "R1"⟩)
          (.rejects (.externalFailure "down"))
          (TokenManager.refreshTokenIfNecessary (CoordCfg.mk {} false ⟨"A1", "R1"⟩)
            (MgrState.init [])).1).1).1.externalCalls = 2) :=
  ⟨rfl, session_reset (CoordCfg.mk {} false ⟨"A1", "R1"⟩)
    (.rejects (.externalFailure "down")) [] rfl⟩

/-! ## C3 — threshold correctness -/

/-- C3, counterexample.  The spec claims `isAccessTokenExpired()` is true
whenever `now ≥ T·1000 − D`.  At the boundary `now = T·1000 − D` (here
`T = 100` s, default `D = 60000` ms, `now = 40000` ms) the source computes
`decoded.exp * 1_000 < Date.now() + this.expiryThreshold`, i.e.
`100000 < 100000`, which is false, so the call returns `false` although
`now ≥ T·1000 − D` holds. -/
theorem threshold_boundary_counterexample :
    100 * 1000 - 60000 ≤ 40000 ∧
    resolveThreshold optsOverrideTok.expiryThreshold = 60000 ∧
    (TokenManager.isAccessTokenExpired optsOverrideTok [] decodeExp100 40000).1 =
      .ok false :=
  ⟨by norm_num, rfl, rfl⟩

/-- C3, amended.  With no override predicate, a token whose decoded expiry
claim is `T ≠ 0` seconds and resolved threshold `D`: `isAccessTokenExpired`
returns `true` whenever `T·1000 < now + D` (strictly, i.e. `now > T·1000 −
D`) and `false` whenever `now + D ≤ T·1000` (in particular at
`now = T·1000 − D` exactly). -/
theorem threshold_correctness_amended (o : TMOptions) (store : Store)
    (decode : String → Option Claims) (now T : Nat) (tokStr : String)
    (hpred : o.isAccessTokenExpiredFn = none)
    (hget : TokenManager.getAccessToken o store = (.ok tokStr, []))
    (hdec : decode tokStr = some ⟨some T⟩) (hT : T ≠ 0) :
    (T * 1000 < now + resolveThreshold o.expiryThreshold →
      (TokenManager.isAccessTokenExpired o store decode now).1 = .ok true) ∧
    (now + resolveThreshold o.expiryThreshold ≤ T * 1000 →
      (TokenManager.isAccessTokenExpired o store decode now).1 = .ok false) := by
  have key : (TokenManager.isAccessTokenExpired o store decode now).1 =
      .ok (decide (T * 1000 < now + resolveThreshold o.expiryThreshold)) := by
    unfold TokenManager.isAccessTokenExpired
    rw [hget]
    simp only [hpred, TokenManager.isTokenExpired, hdec, TokenManager.expiredByClaim]
    simp [hT]
  refine ⟨fun h => ?_, fun h => ?_⟩
  · rw [key]
    simp [h]
  · rw [key]
    simp [Nat.not_lt.mpr h]

/-- C3 witness: amended theorem applied at `T = 100`, default threshold,
`now = 40001` (just past the boundary, expired) — hypotheses discharged
concretely. -/
theorem threshold_correctness_amended_witness :
    optsOverrideTok.isAccessTokenExpiredFn = none ∧
    TokenManager.getAccessToken optsOverrideTok [] = (.ok "t", []) ∧
    decodeExp100 "t" = some ⟨some 100⟩ ∧
    ((100 * 1000 < 40001 + resolveThreshold optsOverrideTok.expiryThreshold →
      (TokenManager.isAccessTokenExpired optsOverrideTok [] decodeExp100 40001).1 = .ok true) ∧
     (40001 + resolveThreshold optsOverrideTok.expiryThreshold ≤ 100 * 1000 →
      (TokenManager.isAccessTokenExpired optsOverrideTok [] decodeExp100 40001).1 = .ok false)) :=
  ⟨rfl, rfl, rfl,
    threshold_correctness_amended optsOverrideTok [] decodeExp100 40001 100 "t"
      rfl rfl rfl (by norm_num)⟩

/-! ## C4 — expired refresh token -/

/-- C4: a call to `refreshTokenIfNecessary()` while no refresh is in
progress and with the refresh token judged expired rejects with the
`refreshToken expired` error, publishes `refreshToken:expired` carrying
that error (and nothing else), never invokes `executeRefreshToken`, and
leaves the coordinator Idle (`isRefreshing` still false). -/
theorem expired_refresh_token_rejects (cfg : CoordCfg) (store0 : Store)
    (h : cfg.refreshExpiredNow = true) :
    (TokenManager.refreshTokenIfNecessary cfg (MgrState.init store0)).2 =
      .rejected .refreshExpired ∧
    (TokenManager.refreshTokenIfNecessary cfg (MgrState.init store0)).1.events =
      [.refreshExpired .refreshExpired] ∧
    (TokenManager.refreshTokenIfNecessary cfg (MgrState.init store0)).1.externalCalls = 0 ∧
    (TokenManager.refreshTokenIfNecessary cfg (MgrState.init store0)).1.isRefreshing = false := by
  simp [TokenManager.refreshTokenIfNecessary, MgrState.init, MgrState.emit, h]

/-- C4 witness at a concrete configuration. -/
theorem expired_refresh_token_rejects_witness :
    (CoordCfg.mk {} true ⟨"A1", "R1"⟩).refreshExpiredNow = true ∧
    ((TokenManager.refreshTokenIfNecessary (CoordCfg.mk {} true ⟨"A1", "R1"⟩)
        (MgrState.init [])).2 = .rejected .refreshExpired ∧
     (TokenManager.refreshTokenIfNecessary (CoordCfg.mk {} true ⟨"A1", "R1"⟩)
        (MgrState.init [])).1.events = [.refreshExpired .refreshExpired] ∧
     (TokenManager.refreshTokenIfNecessary (CoordCfg.mk {} true ⟨"A1", "R1"⟩)
        (MgrState.init [])).1.externalCalls = 0 ∧
     (TokenManager.refreshTokenIfNecessary (CoordCfg.mk {} true ⟨"A1", "R1"⟩)
        (MgrState.init [])).1.isRefreshing = false) :=
  ⟨rfl, expired_refresh_token_rejects (CoordCfg.mk {} true ⟨"A1", "R1"⟩) [] rfl⟩

/-! ## C6 — missing tokens -/

/-- C6, counterexample.  The claim says an override getter yielding an
empty value makes the call publish `token:invalid` and fail with a
missing-token error.  In the source the override's value is returned
unconditionally: with `getAccessToken: () => ''` (and likewise for the
refresh getter) the calls return `''` successfully and publish nothing. -/
theorem override_getter_empty_counterexample :
    optsEmptyOverride.getAccessToken = some "" ∧
    optsEmptyOverride.getRefreshToken = some "" ∧
    TokenManager.getAccessToken optsEmptyOverride [] = (.ok "", []) ∧
    TokenManager.getRefreshToken optsEmptyOverride [] = (.ok "", []) :=
  ⟨rfl, rfl, rfl, rfl⟩

/-- C6, amended: with no override getter configured, when the store lookup
under the Token Key Mapping yields an absent or empty value, the call
publishes `token:invalid` (carrying the error) and fails with the
missing-token error; the failure is surfaced to the caller. -/
theorem missing_token_amended (o : TMOptions) (store : Store)
    (ha : o.getAccessToken = none) (hr : o.getRefreshToken = none)
    (fa : jsFalsy (store.getItem (resolveTokenKey o.tokenKey).accessToken) = true)
    (fr : jsFalsy (store.getItem (resolveTokenKey o.tokenKey).refreshToken) = true) :
    TokenManager.getAccessToken o store =
      (.error .missingAccess, [.tokenInvalid .missingAccess]) ∧
    TokenManager.getRefreshToken o store =
      (.error .missingRefresh, [.tokenInvalid .missingRefresh]) := by
  constructor
  · unfold TokenManager.getAccessToken
    rw [ha]
    revert fa
    cases store.getItem (resolveTokenKey o.tokenKey).accessToken with
    | none => intro _; rfl
    | some s =>
      intro h
      simp [jsFalsy] at h
      subst h
      rfl
  · unfold TokenManager.getRefreshToken
    rw [hr]
    revert fr
    cases store.getItem (resolveTokenKey o.tokenKey).refreshToken with
    | none => intro _; rfl
    | some s =>
      intro h
      simp [jsFalsy] at h
      subst h
      rfl

/-- C6 witness: default options over an empty store. -/
theorem missing_token_amended_witness :
    ({} : TMOptions).getAccessToken = none ∧
    ({} : TMOptions).getRefreshToken = none ∧
    (TokenManager.getAccessToken {} [] =
      (.error .missingAccess, [.tokenInvalid .missingAccess]) ∧
     TokenManager.getRefreshToken {} [] =
      (.error .missingRefresh, [.tokenInvalid .missingRefresh])) :=
  ⟨rfl, rfl, missing_token_amended {} [] rfl rfl rfl rfl⟩

/-! ## C7 — override precedence -/

/-- C7: when an override callback is supplied for a lifecycle event,
publishing that event invokes only that override, and the default
persistence/clearing action leaves the store untouched (it does not run). -/
theorem override_precedence (o : TMOptions) (store : Store) (ev : Ev)
    (h : TokenManager.overrideSupplied o ev = true) :
    TokenManager.handleLifecycleEvent o store ev =
      (store, [TokenManager.overrideCallOf ev]) := by
  cases ev <;>
    simp only [TokenManager.overrideSupplied] at h <;>
    simp [TokenManager.handleLifecycleEvent, TokenManager.overrideCallOf, h]

/-- C7 witness: a `refreshToken:error` event with every override supplied
over a non-empty store — the store is not cleared and only the override
runs. -/
theorem override_precedence_witness :
    TokenManager.overrideSupplied optsAllCallbacks (.refreshError .refreshExpired) = true ∧
    TokenManager.handleLifecycleEvent optsAllCallbacks [("accessToken", "A1")]
        (.refreshError .refreshExpired) =
      ([("accessToken", "A1")], [TokenManager.overrideCallOf (.refreshError .refreshExpired)]) :=
  ⟨rfl, override_precedence optsAllCallbacks [("accessToken", "A1")]
    (.refreshError .refreshExpired) rfl⟩

/-! ## C10 — a zero expiry claim never expires -/

/-- C10: a token whose decoded `exp` claim is `0` is treated by the default
predicate exactly like a token with no `exp` claim — `!decoded.exp` is
truthy for `0` — so `isAccessTokenExpired()` and `isRefreshTokenExpired()`
return `false` at every current time and for every configured threshold. -/
theorem zero_exp_never_expired (o : TMOptions) (store : Store)
    (decode : String → Option Claims) (now : Nat) (atok rtok : String)
    (hpa : o.isAccessTokenExpiredFn = none) (hpr : o.isRefreshTokenExpiredFn = none)
    (hga : TokenManager.getAccessToken o store = (.ok atok, []))
    (hgr : TokenManager.getRefreshToken o store = (.ok rtok, []))
    (hda : decode atok = some ⟨some 0⟩) (hdr : decode rtok = some ⟨some 0⟩) :
    (TokenManager.isAccessTokenExpired o store decode now).1 = .ok false ∧
    (TokenManager.isRefreshTokenExpired o store decode now).1 = .ok false ∧
    TokenManager.expiredByClaim (resolveThreshold o.expiryThreshold) now ⟨some 0⟩ =
      TokenManager.expiredByClaim (resolveThreshold o.expiryThreshold) now ⟨none⟩ := by
  refine ⟨?_, ?_, rfl⟩
  · unfold TokenManager.isAccessTokenExpired
    rw [hga]
    simp only [hpa, TokenManager.isTokenExpired, hda, TokenManager.expiredByClaim]
    simp
  · unfold TokenManager.isRefreshTokenExpired
    rw [hgr]
    simp only [hpr, TokenManager.isTokenExpired, hdr, TokenManager.expiredByClaim]
    simp

/-- C10 witness: a store holding tokens that decode to `exp = 0`, default
options, an arbitrary large current time. -/
theorem zero_exp_never_expired_witness :
    TokenManager.getAccessToken {} [("accessToken", "z"), ("refreshToken", "z")] =
      (.ok "z", []) ∧
    ((TokenManager.isAccessTokenExpired {} [("accessToken", "z"), ("refreshToken", "z")]
        (fun _ => some ⟨some 0⟩) 999999999999).1 = .ok false ∧
     (TokenManager.isRefreshTokenExpired {} [("accessToken", "z"), ("refreshToken", "z")]
        (fun _ => some ⟨some 0⟩) 999999999999).1 = .ok false ∧
     TokenManager.expiredByClaim (resolveThreshold ({} : TMOptions).expiryThreshold)
        999999999999 ⟨some 0⟩ =
      TokenManager.expiredByClaim (resolveThreshold ({} : TMOptions).expiryThreshold)
        999999999999 ⟨none⟩) :=
  ⟨rfl, zero_exp_never_expired {} [("accessToken", "z"), ("refreshToken", "z")]
    (fun _ => some ⟨some 0⟩) 999999999999 "z" "z" rfl rfl rfl rfl rfl rfl⟩

end Bridge
